import Mathlib

set_option autoImplicit false

/-!
Verification of the domain/use-case core of the APP_BE_MENTANA backend:
the `User` entity, the repository port, and the three use cases
(`CreateUser`, `GetUser`, `ListUsers`), embedded shallowly from the
Python source.

Modelling conventions:
* identifiers (UUID strings) are `String`; `uuid4()` is an oracle
  parameter `gen` supplied to each construction;
* timestamps are `Nat` instants; every call to
  `datetime.now(timezone.utc)` in the source is a separate explicit
  clock-reading parameter (two successive readings need not coincide,
  and a well-behaved clock is expressed as a `≤` hypothesis);
* the repository is the in-memory content of the key-value table, a
  `List User`; `put_item` is an upsert by `id`;
* each use case returns its result, the repository state after the
  call, and the trace of port operations it performed, in order;
* Python string truthiness (`not s`) is emptiness of `s`; truthiness of
  an `Optional` entity is `Option.isSome`.
-/

namespace Mentana

/-- The `User` domain entity (`src/domain/src/entities/user.py`). -/
structure User where
  id : String
  email : String
  name : String
  is_active : Bool
  created_at : Nat
  updated_at : Nat
deriving DecidableEq, Repr

/-- Model of `User.__post_init__`: a missing `id` is filled with the generated
UUID `gen`; a missing `created_at` (resp. `updated_at`) is filled with
the clock reading `now1` (resp. `now2`) — the source performs two
separate `datetime.now(timezone.utc)` calls, one per missing field. -/
def User.make (gen : String) (now1 now2 : Nat) (id : Option String)
    (email name : String) (is_active : Bool)
    (created_at updated_at : Option Nat) : User :=
  { id := id.getD gen
    email := email
    name := name
    is_active := is_active
    created_at := created_at.getD now1
    updated_at := updated_at.getD now2 }

/-- Model of `User.update_name`: replaces the name and stamps `updated_at` with
the current clock reading `now`. -/
def User.update_name (u : User) (now : Nat) (newName : String) : User :=
  { u with name := newName, updated_at := now }

/-- Model of `User.deactivate`: clears `is_active` and stamps `updated_at`. -/
def User.deactivate (u : User) (now : Nat) : User :=
  { u with is_active := false, updated_at := now }

/-- Model of `User.activate`: sets `is_active` and stamps `updated_at`. -/
def User.activate (u : User) (now : Nat) : User :=
  { u with is_active := true, updated_at := now }

/-- A character of the local part of the e-mail pattern:
`[a-zA-Z0-9._%+-]`. -/
def localChar (c : Char) : Bool :=
  c.isAlphanum || c == '.' || c == '_' || c == '%' || c == '+' || c == '-'

/-- A character of the domain body of the e-mail pattern:
`[a-zA-Z0-9.-]`. -/
def domainChar (c : Char) : Bool :=
  c.isAlphanum || c == '.' || c == '-'

/-- Exact match of the domain part `[a-zA-Z0-9.-]+\.[a-zA-Z]{2,}`.
Backtracking of the greedy `+` asks for some dot splitting `s` into a
non-empty body of domain characters and a trailing run of at least two
ASCII letters; since the trailing run may not contain a dot, only the
last dot of `s` can be that split point. -/
def matchDomain (s : List Char) : Bool :=
  match s.reverse.span (fun c => c != '.') with
  | (tldRev, '.' :: bodyRev) =>
      !bodyRev.isEmpty && bodyRev.all domainChar
        && decide (2 ≤ tldRev.length) && tldRev.all Char.isAlpha
  | _ => false

/-- Exact match of `[a-zA-Z0-9._%+-]+@` followed by the domain part.
`@` is neither a local nor a domain character, so the first `@` is the
only candidate separator. -/
def matchEmailChars (s : List Char) : Bool :=
  match s.span (fun c => c != '@') with
  | (loc, '@' :: rest) => !loc.isEmpty && loc.all localChar && matchDomain rest
  | _ => false

/-- Model of `CreateUserUseCase._is_valid_email`: Python
`re.match(r'^[a-zA-Z0-9._%+-]+@[a-zA-Z0-9.-]+\.[a-zA-Z]{2,}$', email)`.
Python's `$` matches at the end of the string or just before one final
newline, so the pattern also accepts a single trailing `'\n'`. -/
def is_valid_email (email : String) : Bool :=
  matchEmailChars email.data
    || (match email.data.getLast? with
        | some c => c == '\n' && matchEmailChars email.data.dropLast
        | none => false)

/-- The repository state: the records held by the key-value table of the
DynamoDB adapter (`src/adapters/repositories/aws_dynamodb_user_repository.py`). -/
abbrev Repo := List User

/-- Port operation `find_by_id`: point lookup by the `id` key. -/
def findById (repo : Repo) (user_id : String) : Option User :=
  repo.find? (fun u => u.id == user_id)

/-- Port operation `find_by_email`: exact-match lookup on the e-mail secondary index. -/
def findByEmail (repo : Repo) (email : String) : Option User :=
  repo.find? (fun u => u.email == email)

/-- Port operation `find_all`: full scan. -/
def findAll (repo : Repo) : List User :=
  repo

/-- Port operation `save`: `put_item`, an idempotent upsert by `id` — it replaces the
record with the same `id` or inserts a new one — and the adapter returns
the argument unchanged. -/
def save (repo : Repo) (u : User) : User × Repo :=
  (u,
   if (findById repo u.id).isSome then
     repo.map (fun v => if v.id == u.id then u else v)
   else
     repo ++ [u])

/-- One operation of the repository port, as invoked by a use case. -/
inductive RepoOp where
  | findByEmail (email : String)
  | findById (user_id : String)
  | findAll
  | save (u : User)
  | update (u : User)
  | delete (user_id : String)
deriving DecidableEq, Repr

/-- The mutating operations of the port. -/
def RepoOp.isWrite : RepoOp → Bool
  | .save _ => true
  | .update _ => true
  | .delete _ => true
  | _ => false

/-- The read-only operations of the port. -/
def RepoOp.isRead (op : RepoOp) : Bool :=
  !op.isWrite

/-- The typed domain failures
(`src/domain/src/exceptions/domain_exceptions.py`), with the messages the
use cases raise them with. -/
inductive DomainError where
  | invalidInput (msg : String)
  | alreadyExists (msg : String)
  | notFound (msg : String)
deriving DecidableEq, Repr

/-- The observable outcome of one use-case invocation: the returned
value or raised domain failure, the repository state after the call, and
the ordered trace of port operations performed. -/
structure Outcome (α : Type) where
  result : Except DomainError α
  repo : Repo
  trace : List RepoOp

/-- Model of `CreateUserUseCase.execute`
(`src/domain/src/use_cases/create_user_use_case.py`): truthiness checks
on the two inputs, the regex validation, the `find_by_email` existence
check, then construction (with an explicit `uuid4()` value `gen` and the
entity timestamps omitted, so `__post_init__` reads the clock twice) and
`save`. -/
def CreateUserUseCase.execute (repo : Repo) (gen : String) (now1 now2 : Nat)
    (email name : String) : Outcome User :=
  if email == "" || name == "" then
    ⟨.error (.invalidInput "Email and name are required"), repo, []⟩
  else if !is_valid_email email then
    ⟨.error (.invalidInput "Invalid email"), repo, []⟩
  else
    match findByEmail repo email with
    | some _ =>
        ⟨.error (.alreadyExists "Email is already registered"), repo,
         [.findByEmail email]⟩
    | none =>
        let user := User.make gen now1 now2 (some gen) email name true none none
        let sv := save repo user
        ⟨.ok sv.1, sv.2, [.findByEmail email, .save user]⟩

/-- Model of `GetUserUseCase.execute`
(`src/domain/src/use_cases/get_user_use_case.py`). -/
def GetUserUseCase.execute (repo : Repo) (user_id : String) : Outcome User :=
  match findById repo user_id with
  | none =>
      ⟨.error (.notFound ("User with ID " ++ user_id ++ " not found")), repo,
       [.findById user_id]⟩
  | some u => ⟨.ok u, repo, [.findById user_id]⟩

/-- Model of `GetAllUsersUseCase.execute`
(`src/domain/src/use_cases/get_all_users_use_case.py`). -/
def GetAllUsersUseCase.execute (repo : Repo) : Outcome (List User) :=
  ⟨.ok (findAll repo), repo, [.findAll]⟩

/-- The whitespace characters stripped by Python `str.strip()` (ASCII
range; the Unicode spaces do not occur in the properties below). -/
def pySpace (c : Char) : Bool :=
  c == ' ' || c == '\t' || c == '\n' || c == '\r' || c == '\x0b' || c == '\x0c'

/-- Model of Python `str.strip()`. -/
def pyStrip (s : String) : String :=
  ⟨((s.data.dropWhile pySpace).reverse.dropWhile pySpace).reverse⟩

/-- Model of Python `str.lower()` on one character (ASCII range). -/
def pyLowerChar (c : Char) : Char :=
  if 'A' ≤ c && c ≤ 'Z' then Char.ofNat (c.toNat + 32) else c

/-- Model of Python `str.lower()` (ASCII range). -/
def pyLower (s : String) : String :=
  ⟨s.data.map pyLowerChar⟩

/-- Model of `UserFactory.create_user` (`src/factories/user_factory.py`): rejects
empty-or-whitespace inputs with `ValueError`, then builds the entity
with the e-mail stripped and lower-cased, the name stripped, and both
timestamps passed explicitly from two clock readings. -/
def UserFactory.create_user (gen : String) (now1 now2 : Nat)
    (email name : String) (is_active : Bool) : Except String User :=
  if email == "" || pyStrip email == "" then
    .error "Email is required"
  else if name == "" || pyStrip name == "" then
    .error "Name is required"
  else
    .ok { id := gen
          email := pyLower (pyStrip email)
          name := pyStrip name
          is_active := is_active
          created_at := now1
          updated_at := now2 }

/-- One entity mutation, tagged with the clock reading at which it is
performed. -/
inductive Mutation where
  | updateName (newName : String)
  | activate
  | deactivate
deriving DecidableEq, Repr

/-- Apply one timed mutation to an entity. -/
def applyMutation (u : User) (tm : Nat × Mutation) : User :=
  match tm.2 with
  | .updateName n => u.update_name tm.1 n
  | .activate => u.activate tm.1
  | .deactivate => u.deactivate tm.1

/-- Apply a sequence of timed mutations, oldest first. -/
def applyMutations (u : User) (ms : List (Nat × Mutation)) : User :=
  ms.foldl applyMutation u

/-! ### Scenario lemmas for `CreateUserUseCase.execute` -/

/-- The entity built on the success path of `CreateUserUseCase.execute`. -/
def createdUser (gen : String) (now1 now2 : Nat) (email name : String) : User :=
  User.make gen now1 now2 (some gen) email name true none none

theorem execute_of_empty (repo : Repo) (gen : String) (now1 now2 : Nat)
    (email name : String) (h : email = "" ∨ name = "") :
    CreateUserUseCase.execute repo gen now1 now2 email name =
      ⟨.error (.invalidInput "Email and name are required"), repo, []⟩ := by
  unfold CreateUserUseCase.execute
  rcases h with h | h <;> simp [h]

theorem execute_of_bad_email (repo : Repo) (gen : String) (now1 now2 : Nat)
    (email name : String) (he : email ≠ "") (hn : name ≠ "")
    (hv : is_valid_email email = false) :
    CreateUserUseCase.execute repo gen now1 now2 email name =
      ⟨.error (.invalidInput "Invalid email"), repo, []⟩ := by
  unfold CreateUserUseCase.execute
  simp [he, hn, hv]

theorem execute_of_existing (repo : Repo) (gen : String) (now1 now2 : Nat)
    (email name : String) (w : User) (he : email ≠ "") (hn : name ≠ "")
    (hv : is_valid_email email = true) (hw : findByEmail repo email = some w) :
    CreateUserUseCase.execute repo gen now1 now2 email name =
      ⟨.error (.alreadyExists "Email is already registered"), repo,
       [.findByEmail email]⟩ := by
  unfold CreateUserUseCase.execute
  simp [he, hn, hv, hw]

theorem execute_of_fresh (repo : Repo) (gen : String) (now1 now2 : Nat)
    (email name : String) (he : email ≠ "") (hn : name ≠ "")
    (hv : is_valid_email email = true) (hw : findByEmail repo email = none) :
    CreateUserUseCase.execute repo gen now1 now2 email name =
      ⟨.ok (createdUser gen now1 now2 email name),
       (save repo (createdUser gen now1 now2 email name)).2,
       [.findByEmail email, .save (createdUser gen now1 now2 email name)]⟩ := by
  unfold CreateUserUseCase.execute
  simp [he, hn, hv, hw, createdUser, save]

/-- A valid e-mail is in particular non-empty. -/
theorem ne_empty_of_valid (email : String) (hv : is_valid_email email = true) :
    email ≠ "" := by
  intro h
  subst h
  simp [is_valid_email, matchEmailChars] at hv

/-! ### Claims -/

/-- C7: `GetUser(id)` fails with `NotFound` (carrying the id in its
message) iff `FindByID(id)` returns absent; when a record exists,
`GetUser` returns exactly the stored record, every field unchanged. -/
theorem claim_C7 (repo : Repo) (user_id : String) :
    ((GetUserUseCase.execute repo user_id).result =
        .error (.notFound ("User with ID " ++ user_id ++ " not found"))
      ↔ findById repo user_id = none)
    ∧ ∀ u, findById repo user_id = some u →
        (GetUserUseCase.execute repo user_id).result = .ok u := by
  unfold GetUserUseCase.execute
  cases h : findById repo user_id <;> simp [h]

/-- Witness for C7 at a concrete one-record repository. -/
theorem claim_C7_witness :
    ((GetUserUseCase.execute [] "u0").result =
        .error (.notFound ("User with ID " ++ "u0" ++ " not found"))
      ↔ findById [] "u0" = none)
    ∧ (GetUserUseCase.execute [⟨"u0", "a@b.co", "Bob", true, 0, 0⟩] "u0").result =
        .ok ⟨"u0", "a@b.co", "Bob", true, 0, 0⟩ :=
  ⟨(claim_C7 [] "u0").1,
   (claim_C7 [⟨"u0", "a@b.co", "Bob", true, 0, 0⟩] "u0").2
     ⟨"u0", "a@b.co", "Bob", true, 0, 0⟩ rfl⟩

/-- C9: `Activate()` on an already-active entity keeps `is_active` true
and still stamps `updated_at` with the fresh clock reading. -/
theorem claim_C9 (u : User) (now : Nat) (_h : u.is_active = true) :
    (u.activate now).is_active = true ∧ (u.activate now).updated_at = now :=
  ⟨rfl, rfl⟩

/-- Witness for C9 on a concrete active entity. -/
theorem claim_C9_witness :
    (⟨"u0", "a@b.co", "Bob", true, 0, 0⟩ : User).is_active = true
    ∧ ((⟨"u0", "a@b.co", "Bob", true, 0, 0⟩ : User).activate 5).is_active = true
    ∧ ((⟨"u0", "a@b.co", "Bob", true, 0, 0⟩ : User).activate 5).updated_at = 5 :=
  ⟨rfl, claim_C9 ⟨"u0", "a@b.co", "Bob", true, 0, 0⟩ 5 rfl⟩

/-- C10: `GetUser` and `ListUsers` perform only read operations of the
repository port (`FindByID` resp. `FindAll`), never `Save`/`Update`/
`Delete`, and leave the repository state unchanged, on success and
failure alike. -/
theorem claim_C10 (repo : Repo) (user_id : String) :
    ((GetUserUseCase.execute repo user_id).trace =
        [RepoOp.findById user_id]
      ∧ (GetUserUseCase.execute repo user_id).trace.all RepoOp.isRead = true
      ∧ (GetUserUseCase.execute repo user_id).repo = repo)
    ∧ ((GetAllUsersUseCase.execute repo).trace = [RepoOp.findAll]
      ∧ (GetAllUsersUseCase.execute repo).trace.all RepoOp.isRead = true
      ∧ (GetAllUsersUseCase.execute repo).repo = repo) := by
  refine ⟨?_, rfl, rfl, rfl⟩
  unfold GetUserUseCase.execute
  cases findById repo user_id <;> simp [RepoOp.isRead, RepoOp.isWrite]

/-- C3, counterexample to the claim as stated: a whitespace-only (but
non-empty) name is not rejected — `CreateUser("a@b.co", " ")` succeeds
and writes the new record, because the source only checks Python
truthiness (`not name`), which is emptiness, not blankness. -/
theorem claim_C3_counterexample :
    (CreateUserUseCase.execute [] "g1" 0 1 "a@b.co" " ").result =
      .ok ⟨"g1", "a@b.co", " ", true, 0, 1⟩
    ∧ (CreateUserUseCase.execute [] "g1" 0 1 "a@b.co" " ").repo =
      [⟨"g1", "a@b.co", " ", true, 0, 1⟩] :=
  ⟨rfl, rfl⟩

/-- C3 (amended): for every *empty* name and every email, `CreateUser`
fails with `InvalidInput`, leaves the repository unchanged and performs
no repository operation; whitespace-only non-empty names are accepted. -/
theorem claim_C3_amended (repo : Repo) (gen : String) (now1 now2 : Nat)
    (email : String) :
    (CreateUserUseCase.execute repo gen now1 now2 email "").result =
      .error (.invalidInput "Email and name are required")
    ∧ (CreateUserUseCase.execute repo gen now1 now2 email "").repo = repo
    ∧ (CreateUserUseCase.execute repo gen now1 now2 email "").trace = [] := by
  rw [execute_of_empty repo gen now1 now2 email "" (Or.inr rfl)]
  exact ⟨rfl, rfl, rfl⟩

/-- C1, counterexample to the claim as stated: with clock readings 0
then 1 for the two `datetime.now(timezone.utc)` calls of
`__post_init__`, creation succeeds but `created_at = 0` differs from
`updated_at = 1` — the source reads the clock once per timestamp field,
so the two stamps need not be the same instant. -/
theorem claim_C1_counterexample :
    (CreateUserUseCase.execute [] "g1" 0 1 "a@b.co" "Ann").result =
      .ok ⟨"g1", "a@b.co", "Ann", true, 0, 1⟩
    ∧ (0 : Nat) ≠ 1 :=
  ⟨rfl, by decide⟩

/-- C1 (amended): for a regex-valid email, non-empty name, no existing
record for the email, a generated identifier that is non-empty and not
already present, and a clock whose second reading is not earlier than
the first, `CreateUser` succeeds and returns an entity with
`is_active = true`, `created_at ≤ updated_at` (equality is not
guaranteed, the two stamps come from two separate clock reads), and the
freshly generated identifier. -/
theorem claim_C1_amended (repo : Repo) (gen : String) (now1 now2 : Nat)
    (email name : String) (hv : is_valid_email email = true) (hn : name ≠ "")
    (hfresh : findByEmail repo email = none) (hgen : gen ≠ "")
    (hid : findById repo gen = none) (hclk : now1 ≤ now2) :
    (CreateUserUseCase.execute repo gen now1 now2 email name).result =
      .ok (createdUser gen now1 now2 email name)
    ∧ (createdUser gen now1 now2 email name).is_active = true
    ∧ (createdUser gen now1 now2 email name).created_at ≤
        (createdUser gen now1 now2 email name).updated_at
    ∧ (createdUser gen now1 now2 email name).id = gen
    ∧ (createdUser gen now1 now2 email name).id ≠ ""
    ∧ findById repo (createdUser gen now1 now2 email name).id = none := by
  rw [execute_of_fresh repo gen now1 now2 email name
    (ne_empty_of_valid email hv) hn hv hfresh]
  exact ⟨rfl, rfl, hclk, rfl, hgen, hid⟩

/-- Witness for C1 at a concrete fresh input. -/
theorem claim_C1_witness :
    is_valid_email "a@b.co" = true ∧ ("Ann" : String) ≠ ""
    ∧ findByEmail [] "a@b.co" = none ∧ ("g1" : String) ≠ ""
    ∧ findById [] "g1" = none ∧ (0 : Nat) ≤ 1
    ∧ (CreateUserUseCase.execute [] "g1" 0 1 "a@b.co" "Ann").result =
        .ok (createdUser "g1" 0 1 "a@b.co" "Ann") :=
  ⟨by decide, by decide, rfl, by decide, rfl, by decide,
   (claim_C1_amended [] "g1" 0 1 "a@b.co" "Ann" (by decide) (by decide) rfl
     (by decide) rfl (by decide)).1⟩

/-- C2, counterexample to the claim as stated: `CreateUser` performs no
normalization — the accepted input `"A@B.co"` is stored verbatim, not as
its lower-cased form. -/
theorem claim_C2_counterexample :
    (CreateUserUseCase.execute [] "g1" 0 1 "A@B.co" "Ann").result.map User.email =
      .ok "A@B.co"
    ∧ pyLower (pyStrip "A@B.co") ≠ "A@B.co" :=
  ⟨rfl, by decide⟩

/-- C2 (amended): `CreateUser` stores and passes to `Save` the email
exactly as supplied by the caller, with no lower-casing or trimming;
normalization happens only in `UserFactory.create_user`, a construction
helper that the `CreateUser` path does not invoke. -/
theorem claim_C2_amended (repo : Repo) (gen : String) (now1 now2 : Nat)
    (email name : String) (u : User)
    (h : (CreateUserUseCase.execute repo gen now1 now2 email name).result = .ok u) :
    u.email = email
    ∧ (CreateUserUseCase.execute repo gen now1 now2 email name).trace =
        [.findByEmail email, .save u]
    ∧ ∀ v act, UserFactory.create_user gen now1 now2 email name act = .ok v →
        v.email = pyLower (pyStrip email) := by
  by_cases he : email = ""
  · rw [execute_of_empty repo gen now1 now2 email name (Or.inl he)] at h
    simp at h
  by_cases hn : name = ""
  · rw [execute_of_empty repo gen now1 now2 email name (Or.inr hn)] at h
    simp at h
  cases hv : is_valid_email email with
  | false =>
      rw [execute_of_bad_email repo gen now1 now2 email name he hn hv] at h
      simp at h
  | true =>
      cases hw : findByEmail repo email with
      | some w =>
          rw [execute_of_existing repo gen now1 now2 email name w he hn hv hw] at h
          simp at h
      | none =>
          rw [execute_of_fresh repo gen now1 now2 email name he hn hv hw] at h
          simp at h
          subst h
          rw [execute_of_fresh repo gen now1 now2 email name he hn hv hw]
          refine ⟨rfl, rfl, ?_⟩
          intro v act hf
          unfold UserFactory.create_user at hf
          split at hf
          · simp at hf
          · split at hf
            · simp at hf
            · simp at hf
              subst hf
              rfl

/-- Witness for C2 at a concrete accepting run. -/
theorem claim_C2_witness :
    (CreateUserUseCase.execute [] "g1" 0 1 "A@B.co" "Ann").result =
      .ok (createdUser "g1" 0 1 "A@B.co" "Ann")
    ∧ (createdUser "g1" 0 1 "A@B.co" "Ann").email = "A@B.co"
    ∧ (CreateUserUseCase.execute [] "g1" 0 1 "A@B.co" "Ann").trace =
      [.findByEmail "A@B.co", .save (createdUser "g1" 0 1 "A@B.co" "Ann")] :=
  ⟨rfl,
   (claim_C2_amended [] "g1" 0 1 "A@B.co" "Ann"
      (createdUser "g1" 0 1 "A@B.co" "Ann") rfl).1,
   (claim_C2_amended [] "g1" 0 1 "A@B.co" "Ann"
      (createdUser "g1" 0 1 "A@B.co" "Ann") rfl).2.1⟩

/-- C4, counterexample to the claim as stated: input validation precedes
the existence check, so with an empty name and an existing record for
the email the call fails with `InvalidInput`, not `AlreadyExists`. -/
theorem claim_C4_counterexample :
    findByEmail [⟨"u0", "a@b.co", "Bob", true, 0, 0⟩] "a@b.co" =
      some ⟨"u0", "a@b.co", "Bob", true, 0, 0⟩
    ∧ (CreateUserUseCase.execute [⟨"u0", "a@b.co", "Bob", true, 0, 0⟩]
        "g1" 0 1 "a@b.co" "").result =
      .error (.invalidInput "Email and name are required") :=
  ⟨rfl, rfl⟩

/-- C4 (amended): for inputs passing validation (non-empty name and
regex-valid email), when `FindByEmail(email)` returns a record,
`CreateUser` fails with `AlreadyExists`, the repository state is
unchanged, and the trace is the single read — `Save` is never called. -/
theorem claim_C4_amended (repo : Repo) (gen : String) (now1 now2 : Nat)
    (email name : String) (w : User) (hn : name ≠ "")
    (hv : is_valid_email email = true)
    (hw : findByEmail repo email = some w) :
    (CreateUserUseCase.execute repo gen now1 now2 email name).result =
      .error (.alreadyExists "Email is already registered")
    ∧ (CreateUserUseCase.execute repo gen now1 now2 email name).repo = repo
    ∧ (CreateUserUseCase.execute repo gen now1 now2 email name).trace =
        [.findByEmail email]
    ∧ (CreateUserUseCase.execute repo gen now1 now2 email name).trace.filter
        RepoOp.isWrite = [] := by
  rw [execute_of_existing repo gen now1 now2 email name w
    (ne_empty_of_valid email hv) hn hv hw]
  exact ⟨rfl, rfl, rfl, rfl⟩

/-- Witness for C4 on a concrete one-record repository. -/
theorem claim_C4_witness :
    ("Ann" : String) ≠ "" ∧ is_valid_email "a@b.co" = true
    ∧ findByEmail [⟨"u0", "a@b.co", "Bob", true, 0, 0⟩] "a@b.co" =
        some ⟨"u0", "a@b.co", "Bob", true, 0, 0⟩
    ∧ (CreateUserUseCase.execute [⟨"u0", "a@b.co", "Bob", true, 0, 0⟩]
        "g1" 0 1 "a@b.co" "Ann").result =
      .error (.alreadyExists "Email is already registered")
    ∧ (CreateUserUseCase.execute [⟨"u0", "a@b.co", "Bob", true, 0, 0⟩]
        "g1" 0 1 "a@b.co" "Ann").repo = [⟨"u0", "a@b.co", "Bob", true, 0, 0⟩] :=
  ⟨by decide, by decide, rfl,
   (claim_C4_amended [⟨"u0", "a@b.co", "Bob", true, 0, 0⟩] "g1" 0 1
      "a@b.co" "Ann" ⟨"u0", "a@b.co", "Bob", true, 0, 0⟩ (by decide)
      (by decide) rfl).1,
   (claim_C4_amended [⟨"u0", "a@b.co", "Bob", true, 0, 0⟩] "g1" 0 1
      "a@b.co" "Ann" ⟨"u0", "a@b.co", "Bob", true, 0, 0⟩ (by decide)
      (by decide) rfl).2.1⟩

/-- C5, counterexample to the claim as stated: the invocation
`CreateUser("", "Ann")` fails during validation and performs zero
repository reads and zero writes — not exactly one of each. -/
theorem claim_C5_counterexample :
    (CreateUserUseCase.execute [] "g1" 0 1 "" "Ann").trace = []
    ∧ ((CreateUserUseCase.execute [] "g1" 0 1 "" "Ann").trace.filter
        RepoOp.isRead).length = 0
    ∧ ((CreateUserUseCase.execute [] "g1" 0 1 "" "Ann").trace.filter
        RepoOp.isWrite).length = 0 :=
  ⟨rfl, rfl, rfl⟩

/-- C5 (amended): every invocation of `CreateUser` performs at most one
repository read and at most one write; a successful invocation performs
exactly one read (`FindByEmail`) followed by one write (`Save`); a
failing invocation performs no write and leaves the repository state
unchanged, because validation and existence failures occur before any
write. -/
theorem claim_C5_amended (repo : Repo) (gen : String) (now1 now2 : Nat)
    (email name : String) :
    ((CreateUserUseCase.execute repo gen now1 now2 email name).trace.filter
        RepoOp.isRead).length ≤ 1
    ∧ ((CreateUserUseCase.execute repo gen now1 now2 email name).trace.filter
        RepoOp.isWrite).length ≤ 1
    ∧ (∀ u, (CreateUserUseCase.execute repo gen now1 now2 email name).result =
          .ok u →
        (CreateUserUseCase.execute repo gen now1 now2 email name).trace =
          [.findByEmail email, .save u])
    ∧ (∀ e, (CreateUserUseCase.execute repo gen now1 now2 email name).result =
          .error e →
        (CreateUserUseCase.execute repo gen now1 now2 email name).trace.filter
          RepoOp.isWrite = []
        ∧ (CreateUserUseCase.execute repo gen now1 now2 email name).repo =
            repo) := by
  by_cases he : email = ""
  · rw [execute_of_empty repo gen now1 now2 email name (Or.inl he)]
    refine ⟨by simp, by simp, fun u hu => by simp at hu, fun e _ => ⟨rfl, rfl⟩⟩
  by_cases hn : name = ""
  · rw [execute_of_empty repo gen now1 now2 email name (Or.inr hn)]
    refine ⟨by simp, by simp, fun u hu => by simp at hu, fun e _ => ⟨rfl, rfl⟩⟩
  cases hv : is_valid_email email with
  | false =>
      rw [execute_of_bad_email repo gen now1 now2 email name he hn hv]
      refine ⟨by simp, by simp, fun u hu => by simp at hu, fun e _ => ⟨rfl, rfl⟩⟩
  | true =>
      cases hw : findByEmail repo email with
      | some w =>
          rw [execute_of_existing repo gen now1 now2 email name w he hn hv hw]
          refine ⟨?_, ?_, fun u hu => by simp at hu, fun e _ => ⟨rfl, rfl⟩⟩
          · exact Nat.le_refl 1
          · exact Nat.zero_le 1
      | none =>
          rw [execute_of_fresh repo gen now1 now2 email name he hn hv hw]
          refine ⟨Nat.le_refl 1, Nat.le_refl 1, ?_, ?_⟩
          · intro u hu
            simp at hu
            subst hu
            rfl
          · intro e he'
            simp at he'

/-- Witness for C5 (the inner implications) at concrete runs: a
successful call traces the read then the write; a validation failure
writes nothing and leaves the repository as it was. -/
theorem claim_C5_witness :
    (CreateUserUseCase.execute [] "g1" 0 1 "a@b.co" "Ann").trace =
      [.findByEmail "a@b.co", .save (createdUser "g1" 0 1 "a@b.co" "Ann")]
    ∧ (CreateUserUseCase.execute [] "g1" 0 1 "" "Ann").trace.filter
        RepoOp.isWrite = []
    ∧ (CreateUserUseCase.execute [] "g1" 0 1 "" "Ann").repo = [] :=
  ⟨(claim_C5_amended [] "g1" 0 1 "a@b.co" "Ann").2.2.1
     (createdUser "g1" 0 1 "a@b.co" "Ann") rfl,
   ((claim_C5_amended [] "g1" 0 1 "" "Ann").2.2.2
     (.invalidInput "Email and name are required") rfl).1,
   ((claim_C5_amended [] "g1" 0 1 "" "Ann").2.2.2
     (.invalidInput "Email and name are required") rfl).2⟩

/-- C6, counterexample to the claim as stated: with an empty name the
call fails with `InvalidInput` even though the email matches the
pattern, so `InvalidInput` is not raised *exactly* when the email is
malformed. -/
theorem claim_C6_counterexample :
    is_valid_email "a@b.co" = true
    ∧ (CreateUserUseCase.execute [] "g1" 0 1 "a@b.co" "").result =
      .error (.invalidInput "Email and name are required") :=
  ⟨by decide, rfl⟩

/-- C6 (amended): for every non-empty name, `CreateUser(email, name)`
fails with `InvalidInput` exactly when `email` does not satisfy the
source's check `re.match(r'^[a-zA-Z0-9._%+-]+@[a-zA-Z0-9.-]+\.[a-zA-Z]\x7b2,\x7d$')`
— whose `$`, by Python semantics, also tolerates one trailing newline.
In particular emails missing the `@`, missing a domain, or missing a
TLD are rejected, and a valid email with one trailing newline is
accepted. -/
theorem claim_C6_amended (repo : Repo) (gen : String) (now1 now2 : Nat)
    (email name : String) (hn : name ≠ "") :
    ((∃ msg, (CreateUserUseCase.execute repo gen now1 now2 email name).result =
        .error (.invalidInput msg))
      ↔ is_valid_email email = false)
    ∧ is_valid_email "plainaddress" = false
    ∧ is_valid_email "a@" = false
    ∧ is_valid_email "a@b" = false
    ∧ is_valid_email "a@b." = false
    ∧ is_valid_email "a@b.c" = false
    ∧ is_valid_email "a@b.co" = true
    ∧ is_valid_email "a@b.co\n" = true := by
  refine ⟨?_, by decide, by decide, by decide, by decide, by decide,
    by decide, by decide⟩
  by_cases he : email = ""
  · subst he
    rw [execute_of_empty repo gen now1 now2 "" name (Or.inl rfl)]
    constructor
    · intro _
      decide
    · intro _
      exact ⟨"Email and name are required", rfl⟩
  · cases hv : is_valid_email email with
    | false =>
        rw [execute_of_bad_email repo gen now1 now2 email name he hn hv]
        constructor
        · intro _
          rfl
        · intro _
          exact ⟨"Invalid email", rfl⟩
    | true =>
        cases hw : findByEmail repo email with
        | some w =>
            rw [execute_of_existing repo gen now1 now2 email name w he hn hv hw]
            constructor
            · rintro ⟨msg, hmsg⟩
              simp at hmsg
            · intro hfalse
              simp [hv] at hfalse
        | none =>
            rw [execute_of_fresh repo gen now1 now2 email name he hn hv hw]
            constructor
            · rintro ⟨msg, hmsg⟩
              simp at hmsg
            · intro hfalse
              simp [hv] at hfalse

/-- Witness for C6 at a concrete malformed email and non-empty name. -/
theorem claim_C6_witness :
    ("Ann" : String) ≠ "" ∧ is_valid_email "plainaddress" = false :=
  ⟨by decide,
   (claim_C6_amended [] "g1" 0 1 "plainaddress" "Ann" (by decide)).1.mp
     ⟨"Invalid email", rfl⟩⟩

/-- C8, counterexample to the claim as stated: construction performs no
validation, so explicitly supplying `created_at = 1` and
`updated_at = 0` yields an entity that violates
`updated_at ≥ created_at` already at construction. -/
theorem claim_C8_counterexample :
    (User.make "g1" 0 0 (some "u0") "a@b.co" "Bob" true (some 1)
      (some 0)).updated_at <
    (User.make "g1" 0 0 (some "u0") "a@b.co" "Bob" true (some 1)
      (some 0)).created_at := by
  decide

/-- C8 (amended): for every entity that starts with
`created_at ≤ updated_at` — as construction with omitted timestamps
yields whenever the second clock reading is not earlier than the first —
and every sequence of `update_name`/`activate`/`deactivate` mutations
whose clock readings are all at least `created_at`, the entity satisfies
`updated_at ≥ created_at` after the whole sequence, and `created_at`
itself never changes. -/
theorem claim_C8_amended (u : User) (ms : List (Nat × Mutation))
    (h0 : u.created_at ≤ u.updated_at)
    (hms : ∀ tm ∈ ms, u.created_at ≤ tm.1) :
    (applyMutations u ms).created_at = u.created_at
    ∧ (applyMutations u ms).created_at ≤ (applyMutations u ms).updated_at := by
  induction ms generalizing u with
  | nil => exact ⟨rfl, h0⟩
  | cons tm rest ih =>
      have hcreated : (applyMutation u tm).created_at = u.created_at := by
        cases tm with
        | mk t m => cases m <;> rfl
      have hupd : (applyMutation u tm).updated_at = tm.1 := by
        cases tm with
        | mk t m => cases m <;> rfl
      have h0' : (applyMutation u tm).created_at ≤
          (applyMutation u tm).updated_at := by
        rw [hcreated, hupd]
        exact hms tm (List.mem_cons_self _ _)
      have hrest : ∀ x ∈ rest, (applyMutation u tm).created_at ≤ x.1 := by
        intro x hx
        rw [hcreated]
        exact hms x (List.mem_cons_of_mem _ hx)
      have hres := ih (applyMutation u tm) h0' hrest
      constructor
      · show (applyMutations (applyMutation u tm) rest).created_at =
          u.created_at
        rw [hres.1, hcreated]
      · exact hres.2

/-- Witness for C8: an entity constructed with omitted timestamps under
clock readings 3 then 4, then renamed, deactivated and reactivated at
later instants. -/
theorem claim_C8_witness :
    (User.make "g1" 3 4 none "a@b.co" "Ann" true none none).created_at ≤
      (User.make "g1" 3 4 none "a@b.co" "Ann" true none none).updated_at
    ∧ (applyMutations (User.make "g1" 3 4 none "a@b.co" "Ann" true none none)
        [(5, .updateName "Bea"), (6, .deactivate), (8, .activate)]).created_at =
      (User.make "g1" 3 4 none "a@b.co" "Ann" true none none).created_at
    ∧ (applyMutations (User.make "g1" 3 4 none "a@b.co" "Ann" true none none)
        [(5, .updateName "Bea"), (6, .deactivate), (8, .activate)]).created_at ≤
      (applyMutations (User.make "g1" 3 4 none "a@b.co" "Ann" true none none)
        [(5, .updateName "Bea"), (6, .deactivate), (8, .activate)]).updated_at :=
  ⟨by decide,
   (claim_C8_amended (User.make "g1" 3 4 none "a@b.co" "Ann" true none none)
     [(5, .updateName "Bea"), (6, .deactivate), (8, .activate)]
     (by decide) (by decide)).1,
   (claim_C8_amended (User.make "g1" 3 4 none "a@b.co" "Ann" true none none)
     [(5, .updateName "Bea"), (6, .deactivate), (8, .activate)]
     (by decide) (by decide)).2⟩

end Mentana
